import Mathlib

/-!
Verification of the reactive data-synchronization core of the todo app
(`src/app.rs`, `src/todo.rs`).

The server functions `get_todos`, `add_todo` and `delete_todo` from
`src/todo.rs` are embedded as pure functions over an explicit store state.
The SQL statements they execute against the SQLite `todos` table are
modelled by list operations with standard SQL semantics; storage-layer
failures (connection error, execution error) are injected through an
explicit `DbOutcome` oracle, mirroring the two fallible calls
(`db().await?` and `.execute(&mut conn).await`) in the source.

The reactive layer (`Todos` component): the create dispatcher
(`ServerMultiAction::<AddTodo>`), the delete dispatcher
(`ServerAction::<DeleteTodo>`), the collection resource
(`Resource::new`) and the pending-submission overlay.  The wiring — the
dependency-key closure, the overlay filter and map — is taken from the
source; the framework internals (version counters incrementing on
settlement, pending flags, refetch-on-key-change, last-fetch-wins) are
not part of this repository and are modelled from the spec where so
marked.
-/

/-- The `Todo` record from `src/todo.rs`: `id: u16`, `title: String`,
`completed: bool`.  Identifiers are modelled as `Nat`; no claim involves
`u16` overflow. -/
structure Todo where
  id : Nat
  title : String
  completed : Bool
deriving Repr, DecidableEq

/-- The SQLite `todos` table: its rows in order, plus the next row
identifier the store will assign on insert. -/
structure Store where
  rows : List Todo
  nextId : Nat
deriving Repr, DecidableEq

/-- `SELECT * FROM todos` — the full row list, in table order
(executed by `get_todos`). -/
def selectAll (s : Store) : List Todo :=
  s.rows

/-- `INSERT INTO todos (title, completed) VALUES ($1, false)` — appends
one row with the store-assigned identifier, the bound title and
`completed = false` (executed by `add_todo`). -/
def insertRow (s : Store) (title : String) : Store :=
  { rows := s.rows ++ [⟨s.nextId, title, false⟩], nextId := s.nextId + 1 }

/-- `DELETE FROM todos WHERE id = $1` — removes every row whose `id`
equals the bound identifier; rows that do not match are kept unchanged.
A `DELETE` matching zero rows is a successful no-op in SQL (executed by
`delete_todo`). -/
def deleteRows (s : Store) (id : Nat) : Store :=
  { s with rows := s.rows.filter (fun r => r.id ≠ id) }

/-- The error type crossing the server-function boundary
(`server_fn::ServerFnError`).  Both the `?`-propagated connection error
and the explicitly wrapped `ServerFnError::ServerError(e.to_string())`
arm of `add_todo` surface as a `ServerError` carrying the message. -/
inductive ServerFnError where
  | serverError (msg : String)
deriving Repr, DecidableEq

/-- Outcome oracle for one server-function call against the storage
layer: the connection (`db().await?`) may fail, the SQL execution
(`.execute(..).await`) may fail, or both succeed. -/
inductive DbOutcome where
  | ok
  | connErr (msg : String)
  | execErr (msg : String)
deriving Repr, DecidableEq

/-- `get_todos` from `src/todo.rs`: opens a connection, runs
`SELECT * FROM todos`, and returns the collected rows; any failure
propagates as an error value of the `Result`. -/
def get_todos (env : DbOutcome) (s : Store) : Except ServerFnError (List Todo) :=
  match env with
  | DbOutcome.ok => Except.ok (selectAll s)
  | DbOutcome.connErr msg => Except.error (ServerFnError.serverError msg)
  | DbOutcome.execErr msg => Except.error (ServerFnError.serverError msg)

/-- `add_todo` from `src/todo.rs`: opens a connection, runs the
`INSERT`, and matches the result — `Ok(_row) => Ok(())`,
`Err(e) => Err(ServerFnError::ServerError(e.to_string()))`.  On any
failure the store is unchanged; on success it returns the unit value
(not the created row) and the store gains exactly the inserted row. -/
def add_todo (env : DbOutcome) (title : String) (s : Store) :
    Except ServerFnError Unit × Store :=
  match env with
  | DbOutcome.ok => (Except.ok (), insertRow s title)
  | DbOutcome.connErr msg => (Except.error (ServerFnError.serverError msg), s)
  | DbOutcome.execErr msg => (Except.error (ServerFnError.serverError msg), s)

/-- `delete_todo` from `src/todo.rs`: opens a connection, runs the
`DELETE`, maps the successful query result to `()`, and propagates any
failure with `?` as an error value. -/
def delete_todo (env : DbOutcome) (id : Nat) (s : Store) :
    Except ServerFnError Unit × Store :=
  match env with
  | DbOutcome.ok => (Except.ok (), deleteRows s id)
  | DbOutcome.connErr msg => (Except.error (ServerFnError.serverError msg), s)
  | DbOutcome.execErr msg => (Except.error (ServerFnError.serverError msg), s)

/-- Modelled from the spec: the Record Store boundary contract
`insert(title: text) -> Task Record` of section 6, which says the store
returns the created record with its assigned identifier.  This is the
spec's wording, stated for comparison with `add_todo`, whose actual
success value is `()`. -/
def insertSpec (title : String) (s : Store) : Store × Todo :=
  (insertRow s title, ⟨s.nextId, title, false⟩)

/-- An empty store whose first assigned identifier is 1. -/
def store0 : Store :=
  { rows := [], nextId := 1 }

/-- A store holding a single record with identifier 1. -/
def store1 : Store :=
  { rows := [⟨1, "Buy milk", false⟩], nextId := 2 }

/-- Claim C5, counterexample: a successful `add_todo "Buy milk"` on the
empty store inserts the record `⟨1, "Buy milk", false⟩`, but its success
value is the unit value `()` — the created Task Record with its
store-assigned identifier (which `insertSpec`, the spec's wording of the
store contract, would return) is not returned to the caller. -/
theorem add_todo_success_returns_unit_cex :
    (add_todo DbOutcome.ok "Buy milk" store0).1 = Except.ok ()
    ∧ (add_todo DbOutcome.ok "Buy milk" store0).2.rows = [⟨1, "Buy milk", false⟩]
    ∧ (insertSpec "Buy milk" store0).2 = ⟨1, "Buy milk", false⟩ :=
  ⟨rfl, rfl, rfl⟩

/-- Claim C5, amended: for every title and store state, a successful
create mutation inserts exactly one new record whose title is the given
title and whose completed field is `false`, with the store-assigned
identifier; the mutation returns only the unit success value — the
created record is not returned. -/
theorem add_todo_inserts_exactly_one_row (title : String) (s : Store) :
    (add_todo DbOutcome.ok title s).1 = Except.ok ()
    ∧ (add_todo DbOutcome.ok title s).2.rows = s.rows ++ [⟨s.nextId, title, false⟩]
    ∧ (add_todo DbOutcome.ok title s).2.rows.length = s.rows.length + 1 :=
  ⟨rfl, rfl, by simp [add_todo, insertRow]⟩

/-- Claim C6: a successful delete mutation on `id` followed by a
refetch yields exactly the previous collection with every record whose
identifier equals `id` removed; a record survives the delete exactly
when it was present before and its identifier differs from `id`. -/
theorem delete_then_refetch_removes_exactly_matching_ids (id : Nat) (s : Store) (t : Todo) :
    (delete_todo DbOutcome.ok id s).1 = Except.ok ()
    ∧ get_todos DbOutcome.ok (delete_todo DbOutcome.ok id s).2
        = Except.ok (s.rows.filter (fun r => r.id ≠ id))
    ∧ (t ∈ (delete_todo DbOutcome.ok id s).2.rows ↔ t ∈ s.rows ∧ t.id ≠ id) := by
  refine ⟨rfl, rfl, ?_⟩
  simp [delete_todo, deleteRows, List.mem_filter]

/-- Claim C9, counterexample: `add_todo ""` with a successful store
call inserts and keeps a record whose title is the empty string — the
create path does store empty-titled records. -/
theorem empty_title_is_stored_cex :
    (add_todo DbOutcome.ok "" store0).1 = Except.ok ()
    ∧ Todo.mk 1 "" false ∈ (add_todo DbOutcome.ok "" store0).2.rows
    ∧ (Todo.mk 1 "" false).title = "" :=
  ⟨rfl, by decide, rfl⟩

/-- Claim C9, amended: the create path performs no title validation —
for every input string, the empty string included, a create whose store
call succeeds inserts a record carrying exactly that title; the
non-empty-title constraint is enforced only by the UI form's `required`
attribute, outside this layer. -/
theorem add_todo_performs_no_title_validation (title : String) (s : Store) :
    (add_todo DbOutcome.ok title s).1 = Except.ok ()
    ∧ Todo.mk s.nextId title false ∈ (add_todo DbOutcome.ok title s).2.rows := by
  refine ⟨rfl, ?_⟩
  simp [add_todo, insertRow]

/-- Claim C8, counterexample: `store1` holds only the record with
identifier 1, yet `delete_todo 5` succeeds with the unit value and
leaves the store unchanged — no failure outcome is produced for a
non-existent identifier. -/
theorem delete_nonexistent_id_succeeds_cex :
    delete_todo DbOutcome.ok 5 store1 = (Except.ok (), store1) := by
  rfl

/-- Claim C8, amended: a delete whose identifier matches no existing
record succeeds as a no-op — the dispatcher performs no existence
pre-check, the SQL `DELETE` is executed unconditionally, and a
zero-row match is a success, not a failure. -/
theorem delete_nonexistent_id_is_noop (id : Nat) (s : Store)
    (h : ∀ t ∈ s.rows, t.id ≠ id) :
    (delete_todo DbOutcome.ok id s).1 = Except.ok ()
    ∧ (delete_todo DbOutcome.ok id s).2 = s := by
  refine ⟨rfl, ?_⟩
  have hf : s.rows.filter (fun r => decide (r.id ≠ id)) = s.rows := by
    rw [List.filter_eq_self]
    intro a ha
    simpa using h a ha
  show deleteRows s id = s
  unfold deleteRows
  rw [hf]

/-- Claim C8, witness for `delete_nonexistent_id_is_noop` at `id = 5`
on `store1`. -/
theorem delete_nonexistent_id_witness :
    (∀ t ∈ store1.rows, t.id ≠ 5)
    ∧ (delete_todo DbOutcome.ok 5 store1).1 = Except.ok ()
    ∧ (delete_todo DbOutcome.ok 5 store1).2 = store1 :=
  ⟨by decide, (delete_nonexistent_id_is_noop 5 store1 (by decide)).1,
    (delete_nonexistent_id_is_noop 5 store1 (by decide)).2⟩

deriving instance DecidableEq for Except

/-- Modelled from the spec: one Mutation Submission of the create
dispatcher (`ServerMultiAction` internals are not part of this
repository).  It carries the echoed input payload (the title), the
dispatcher version at dispatch time, and its settled outcome —
`none` while in flight, `some result` once the server call concluded. -/
structure Submission where
  inputTitle : String
  dispatchVersion : Nat
  outcome : Option (Except ServerFnError Unit)
deriving Repr, DecidableEq

/-- Modelled from the spec: a Mutation Dispatcher's observable state —
its monotonically increasing version counter and the submissions
dispatched so far. -/
structure Dispatcher where
  version : Nat
  submissions : List Submission
deriving Repr, DecidableEq

/-- Modelled from the spec: a submission is pending exactly until its
governing dispatcher's version counter advances past the submission's
dispatch-time version. -/
def isPending (d : Dispatcher) (sub : Submission) : Bool :=
  decide (d.version ≤ sub.dispatchVersion)

/-- The optimistic overlay computed in the `Todos` view: the create
dispatcher's submissions, filtered to the pending ones, each rendered
as one placeholder row showing its echoed input title
(`submissions.get().into_iter().filter(..pending..).map(..input..title)`). -/
def pendingOverlay (d : Dispatcher) : List String :=
  (d.submissions.filter (fun sub => isPending d sub)).map (fun sub => sub.inputTitle)

/-- The reactive state of the `Todos` component: the create dispatcher
(`ServerMultiAction::<AddTodo>`), the delete dispatcher's version
counter (`ServerAction::<DeleteTodo>`; its submissions are not
rendered), and the record store reached by the server functions. -/
structure Sys where
  addD : Dispatcher
  delVersion : Nat
  store : Store
deriving Repr, DecidableEq

/-- Events driving the reactive state, modelled from the spec's
scheduling model: a create is dispatched (a new submission appears), a
dispatched create settles (its server call concludes with the given
storage outcome), a delete is dispatched, or the in-flight delete
settles. -/
inductive Event where
  | dispatchCreate (title : String)
  | settleCreate (i : Nat) (env : DbOutcome)
  | dispatchDelete (id : Nat)
  | settleDelete (id : Nat) (env : DbOutcome)

/-- Modelled from the spec: one synchronous state transition of the
reactive layer.  Dispatching a create appends a fresh in-flight
submission stamped with the current version.  Settling the in-flight
submission at index `i` runs `add_todo`, records the call's result as
the submission's outcome, and increments the create dispatcher's
version by exactly one, regardless of success or failure; a settle
event for an index with no in-flight submission changes nothing.
Settling a delete runs `delete_todo` and increments the delete
dispatcher's version by exactly one. -/
def step (st : Sys) : Event → Sys
  | Event.dispatchCreate title =>
      { st with
        addD := { st.addD with
          submissions := st.addD.submissions ++ [⟨title, st.addD.version, none⟩] } }
  | Event.settleCreate i env =>
      match st.addD.submissions[i]? with
      | none => st
      | some sub =>
        if sub.outcome = none then
          { addD :=
              { version := st.addD.version + 1,
                submissions := st.addD.submissions.set i
                  { sub with outcome := some (add_todo env sub.inputTitle st.store).1 } },
            delVersion := st.delVersion,
            store := (add_todo env sub.inputTitle st.store).2 }
        else st
  | Event.dispatchDelete _ => st
  | Event.settleDelete id env =>
      { st with
        delVersion := st.delVersion + 1,
        store := (delete_todo env id st.store).2 }

/-- Running a sequence of events from a state. -/
def run (st : Sys) (es : List Event) : Sys :=
  es.foldl step st

/-- One step never decreases either dispatcher's version counter. -/
theorem step_version_le (st : Sys) (e : Event) :
    st.addD.version ≤ (step st e).addD.version
    ∧ st.delVersion ≤ (step st e).delVersion := by
  cases e with
  | dispatchCreate title => exact ⟨Nat.le_refl _, Nat.le_refl _⟩
  | settleCreate i env =>
      simp only [step]
      cases h : st.addD.submissions[i]? with
      | none => exact ⟨Nat.le_refl _, Nat.le_refl _⟩
      | some sub =>
          by_cases ho : sub.outcome = none
          · simp only [ho, if_pos rfl]
            exact ⟨Nat.le_succ _, Nat.le_refl _⟩
          · simp only [if_neg ho]
            exact ⟨Nat.le_refl _, Nat.le_refl _⟩
  | dispatchDelete id => exact ⟨Nat.le_refl _, Nat.le_refl _⟩
  | settleDelete id env => exact ⟨Nat.le_refl _, Nat.le_succ _⟩

/-- Along any event sequence both version counters are non-decreasing. -/
theorem run_version_le (es : List Event) :
    ∀ st : Sys, st.addD.version ≤ (run st es).addD.version
      ∧ st.delVersion ≤ (run st es).delVersion := by
  induction es with
  | nil => exact fun st => ⟨Nat.le_refl _, Nat.le_refl _⟩
  | cons e es ih =>
      intro st
      have h1 := step_version_le st e
      have h2 := ih (step st e)
      exact ⟨Nat.le_trans h1.1 h2.1, Nat.le_trans h1.2 h2.2⟩

/-- The dependency-key closure passed to `Resource::new` in the `Todos`
component, exactly as written in the source: the 3-tuple
`(delete_todo.version().get(), add_todo.version().get(),
delete_todo.version().get())` — the delete dispatcher's version counter
appears twice. -/
def depKey (st : Sys) : Nat × Nat × Nat :=
  (st.delVersion, st.addD.version, st.delVersion)

/-- Modelled from the spec: the dependency key as the spec words it —
the pair of the create dispatcher's and the delete dispatcher's version
counters, compared structurally. -/
def specDepKey (st : Sys) : Nat × Nat :=
  (st.addD.version, st.delVersion)

/-- Modelled from the spec: the Collection Resource's fetch discipline —
given the previously observed dependency key (`none` before the first
observation), it issues one fetch for the first observed key and one
fetch for every subsequently observed key that differs structurally from
the one observed just before it; an observed key equal to the previous
one issues no fetch. -/
def countFetches {K : Type} [DecidableEq K] : Option K → List K → Nat
  | _, [] => 0
  | none, k :: ks => 1 + countFetches (some k) ks
  | some k0, k :: ks => (if k = k0 then 0 else 1) + countFetches (some k) ks

/-- The observed key sequence with adjacent repetitions of the given
previous key collapsed: the subsequence of keys that differ from the key
observed just before them. -/
def dedupAdjFrom {K : Type} [DecidableEq K] : K → List K → List K
  | _, [] => []
  | k0, k :: ks => if k = k0 then dedupAdjFrom k0 ks else k :: dedupAdjFrom k ks

/-- The observed key sequence with adjacent repetitions collapsed: the
distinct dependency-key values in observation order. -/
def dedupAdj {K : Type} [DecidableEq K] : List K → List K
  | [] => []
  | k :: ks => k :: dedupAdjFrom k ks

/-- The fetch count starting from a known previous key equals the number
of remaining keys once adjacent repetitions of that key are collapsed. -/
theorem countFetches_eq_length_dedupAdjFrom {K : Type} [DecidableEq K]
    (ks : List K) : ∀ k0 : K,
      countFetches (some k0) ks = (dedupAdjFrom k0 ks).length := by
  induction ks with
  | nil => intro k0; rfl
  | cons k ks ih =>
      intro k0
      by_cases h : k = k0
      · subst h
        simp [countFetches, dedupAdjFrom, ih k]
      · simp [countFetches, dedupAdjFrom, h, ih k, Nat.add_comm]

/-- The total fetch count over an observed key sequence equals the
number of distinct dependency-key values in observation order. -/
theorem countFetches_eq_length_dedupAdj {K : Type} [DecidableEq K]
    (ks : List K) : countFetches none ks = (dedupAdj ks).length := by
  cases ks with
  | nil => rfl
  | cons k ks =>
      simp [countFetches, dedupAdj, countFetches_eq_length_dedupAdjFrom ks k,
        Nat.add_comm]

/-- Consecutive keys in the collapsed sequence are pairwise distinct,
starting from the given previous key. -/
theorem chain_ne_dedupAdjFrom {K : Type} [DecidableEq K] (ks : List K) :
    ∀ k0 : K, List.Chain (fun a b => a ≠ b) k0 (dedupAdjFrom k0 ks) := by
  induction ks with
  | nil => intro k0; exact List.Chain.nil
  | cons k ks ih =>
      intro k0
      by_cases h : k = k0
      · simpa [dedupAdjFrom, h] using ih k0
      · simp only [dedupAdjFrom, if_neg h]
        exact List.Chain.cons (fun he => h he.symm) (ih k)

/-- The collapsed key sequence has no two equal adjacent elements. -/
theorem chain_ne_dedupAdj {K : Type} [DecidableEq K] (ks : List K) :
    List.Chain' (fun a b => a ≠ b) (dedupAdj ks) := by
  cases ks with
  | nil => trivial
  | cons k ks => exact chain_ne_dedupAdjFrom ks k

/-- Claim C1: the dependency key of the Collection Resource is built
from the create dispatcher's and the delete dispatcher's version
counters and nothing else — two keys are structurally equal exactly when
both counters agree — and over every observed key sequence the resource
issues exactly one fetch per distinct dependency-key value (the length
of the adjacent-collapsed sequence, whose entries are pairwise distinct
at adjacent positions), while a repeated identical tuple triggers no
extra fetch. -/
theorem depKey_structural_one_fetch_per_distinct_value
    (st st2 : Sys) (ks : List (Nat × Nat × Nat)) (k0 : Nat × Nat × Nat) :
    (depKey st = depKey st2
        ↔ st.addD.version = st2.addD.version ∧ st.delVersion = st2.delVersion)
    ∧ countFetches none ks = (dedupAdj ks).length
    ∧ List.Chain' (fun a b => a ≠ b) (dedupAdj ks)
    ∧ countFetches (some k0) (k0 :: ks) = countFetches (some k0) ks := by
  refine ⟨?_, countFetches_eq_length_dedupAdj ks, chain_ne_dedupAdj ks, ?_⟩
  · simp only [depKey, Prod.mk.injEq]
    constructor
    · intro h
      exact ⟨h.2.1, h.1⟩
    · intro h
      exact ⟨h.2, h.1, h.2⟩
  · simp [countFetches]

/-- Two states have equal implemented 3-tuple keys exactly when they
have equal spec-worded 2-tuple keys. -/
theorem depKey_eq_iff (a b : Sys) :
    depKey a = depKey b ↔ specDepKey a = specDepKey b := by
  simp only [depKey, specDepKey, Prod.mk.injEq]
  constructor
  · intro h
    exact ⟨h.2.1, h.1⟩
  · intro h
    exact ⟨h.2, h.1, h.2⟩

/-- Fetch counts agree between the implemented 3-tuple key and the
spec-worded 2-tuple key along any state trace, from any previous state. -/
theorem countFetches_map_from (tr : List Sys) :
    ∀ last : Sys,
      countFetches (some (depKey last)) (tr.map depKey)
        = countFetches (some (specDepKey last)) (tr.map specDepKey) := by
  induction tr with
  | nil => intro last; rfl
  | cons t tr ih =>
      intro last
      simp only [List.map_cons, countFetches]
      by_cases h : specDepKey t = specDepKey last
      · rw [if_pos h, if_pos ((depKey_eq_iff t last).mpr h), ih t]
      · rw [if_neg h, if_neg (fun hc => h ((depKey_eq_iff t last).mp hc)), ih t]

/-- Claim C10: the implemented dependency key is the 3-tuple
`(delete version, add version, delete version)` with the delete
counter duplicated; it differs structurally between two states exactly
when the 2-tuple `(add version, delete version)` differs, and over any
state trace the number of fetches the resource issues is the same for
the implemented 3-tuple key as for the spec's 2-tuple key. -/
theorem depKey_triple_equiv_spec_pair (st st2 : Sys) (tr : List Sys) :
    depKey st = (st.delVersion, st.addD.version, st.delVersion)
    ∧ (depKey st = depKey st2 ↔ specDepKey st = specDepKey st2)
    ∧ countFetches none (tr.map depKey) = countFetches none (tr.map specDepKey) := by
  refine ⟨rfl, depKey_eq_iff st st2, ?_⟩
  cases tr with
  | nil => rfl
  | cons t tr =>
      simp only [List.map_cons, countFetches]
      rw [countFetches_map_from tr t]

/-- Modelled from the spec: the Collection Resource's in-flight fetch
bookkeeping.  `issued` counts the fetches issued so far (fetch
identifiers are assigned in issue order, so the most recently issued
fetch has identifier `issued - 1`); `snapshot` is the current Collection
Snapshot, wholesale-replaced only by a settling fetch. -/
structure ResourceState where
  issued : Nat
  snapshot : Option (List Todo)
deriving Repr, DecidableEq

/-- Modelled from the spec: issuing a fetch hands out the next fetch
identifier and marks that fetch as the most recently issued one. -/
def issueFetch (r : ResourceState) : ResourceState × Nat :=
  ({ r with issued := r.issued + 1 }, r.issued)

/-- Modelled from the spec: a fetch settling with a result replaces the
snapshot only if it is the most recently issued fetch; the result of any
superseded fetch is discarded on arrival, leaving the state untouched. -/
def settleFetch (r : ResourceState) (fid : Nat) (result : List Todo) : ResourceState :=
  if fid + 1 = r.issued then { r with snapshot := some result } else r

/-- Claim C4: with fetch A issued first and fetch B issued second, if B
settles first with result `rB` and A settles afterwards with result
`rA`, the final snapshot is B's result, and A's late arrival leaves the
state exactly as B's settlement left it — the superseded result is
discarded, not written over the newer snapshot. -/
theorem last_fetch_wins_discards_superseded (r0 : ResourceState) (rA rB : List Todo) :
    (settleFetch (settleFetch (issueFetch (issueFetch r0).1).1
          (issueFetch (issueFetch r0).1).2 rB) (issueFetch r0).2 rA).snapshot
        = some rB
    ∧ settleFetch (settleFetch (issueFetch (issueFetch r0).1).1
          (issueFetch (issueFetch r0).1).2 rB) (issueFetch r0).2 rA
        = settleFetch (issueFetch (issueFetch r0).1).1
            (issueFetch (issueFetch r0).1).2 rB := by
  have hA : ¬ (issueFetch r0).2 + 1
      = (settleFetch (issueFetch (issueFetch r0).1).1
          (issueFetch (issueFetch r0).1).2 rB).issued := by
    simp [issueFetch, settleFetch]
  constructor
  · rw [settleFetch, if_neg hA]
    simp [issueFetch, settleFetch]
  · rw [settleFetch, if_neg hA]

/-- Claim C2: the overlay's filtered set holds a submission exactly when
it is one of the dispatcher's submissions whose pending flag is still
true (the dispatcher version has not advanced past its dispatch-time
version); the overlay renders one placeholder row per such submission,
each row showing the submission's echoed input title; and any submission
whose dispatch-time version the dispatcher version has advanced past is
excluded from the overlay's filtered set in the very next render. -/
theorem overlay_renders_exactly_pending_submissions
    (d : Dispatcher) (sub : Submission) (idx : Nat) :
    (sub ∈ d.submissions.filter (fun x => isPending d x)
        ↔ sub ∈ d.submissions ∧ d.version ≤ sub.dispatchVersion)
    ∧ (pendingOverlay d).length
        = (d.submissions.filter (fun x => isPending d x)).length
    ∧ (pendingOverlay d)[idx]?
        = ((d.submissions.filter (fun x => isPending d x))[idx]?).map
            (fun x => x.inputTitle)
    ∧ (sub.dispatchVersion < d.version
        → sub ∉ d.submissions.filter (fun x => isPending d x)) := by
  refine ⟨?_, by simp [pendingOverlay], by simp [pendingOverlay], ?_⟩
  · simp [List.mem_filter, isPending]
  · intro hlt hmem
    have h := (List.mem_filter.mp hmem).2
    simp only [isPending, decide_eq_true_eq] at h
    omega

/-- A submission dispatched at version 0 and already settled
successfully. -/
def subB : Submission :=
  ⟨"Buy milk", 0, some (Except.ok ())⟩

/-- A create dispatcher whose version has advanced to 1, past `subB`'s
dispatch-time version 0. -/
def dispB : Dispatcher :=
  ⟨1, [subB]⟩

/-- Claim C2, witness: in `dispB` the version has advanced past `subB`'s
dispatch-time version, and `subB` is excluded from the overlay's
filtered set. -/
theorem overlay_excludes_settled_witness :
    subB.dispatchVersion < dispB.version
    ∧ subB ∉ dispB.submissions.filter (fun x => isPending dispB x) :=
  ⟨by decide,
    (overlay_renders_exactly_pending_submissions dispB subB 0).2.2.2 (by decide)⟩

/-- Claim C3: along every event sequence both dispatchers' version
counters are non-decreasing; settling an in-flight submission (whatever
the storage outcome, success or failure) increments the owning
dispatcher's counter by exactly 1 and leaves the other dispatcher's
counter unchanged; dispatching changes no counter; and settling the same
submission a second time is a no-op, so each dispatch's settlement
increments the counter exactly once. -/
theorem dispatcher_version_monotone_settle_increments_once
    (st : Sys) (es : List Event) (i : Nat) (sub : Submission) (env : DbOutcome)
    (id : Nat) (title : String)
    (h1 : st.addD.submissions[i]? = some sub) (h2 : sub.outcome = none) :
    st.addD.version ≤ (run st es).addD.version
    ∧ st.delVersion ≤ (run st es).delVersion
    ∧ (step st (Event.settleCreate i env)).addD.version = st.addD.version + 1
    ∧ (step st (Event.settleCreate i env)).delVersion = st.delVersion
    ∧ (step st (Event.settleDelete id env)).delVersion = st.delVersion + 1
    ∧ (step st (Event.settleDelete id env)).addD.version = st.addD.version
    ∧ (step st (Event.dispatchCreate title)).addD.version = st.addD.version
    ∧ (step st (Event.dispatchCreate title)).delVersion = st.delVersion
    ∧ step (step st (Event.settleCreate i env)) (Event.settleCreate i env)
        = step st (Event.settleCreate i env) := by
  have hlen : i < st.addD.submissions.length := by
    rcases List.getElem?_eq_some_iff.mp h1 with ⟨h, _⟩
    exact h
  refine ⟨(run_version_le es st).1, (run_version_le es st).2, ?_, ?_, rfl, rfl,
    rfl, rfl, ?_⟩
  · simp [step, h1, h2]
  · simp [step, h1, h2]
  · simp [step, h1, h2, List.getElem?_set_self hlen]

/-- A submission dispatched at version 0 and still in flight. -/
def subA : Submission :=
  ⟨"Buy milk", 0, none⟩

/-- A create dispatcher at version 0 holding the single in-flight
submission `subA`. -/
def dispA : Dispatcher :=
  ⟨0, [subA]⟩

/-- A reactive state with dispatcher `dispA`, delete version 0 and the
empty store. -/
def sysA : Sys :=
  ⟨dispA, 0, store0⟩

/-- Claim C3, witness: `sysA` holds the in-flight submission `subA` at
index 0, and settling it bumps the create dispatcher's version from 0 to
1. -/
theorem dispatcher_version_settle_witness :
    sysA.addD.submissions[0]? = some subA
    ∧ subA.outcome = none
    ∧ (step sysA (Event.settleCreate 0 DbOutcome.ok)).addD.version
        = sysA.addD.version + 1 :=
  ⟨by decide, by decide,
    (dispatcher_version_monotone_settle_increments_once sysA [] 0 subA
      DbOutcome.ok 0 "Buy milk" (by decide) (by decide)).2.2.1⟩

/-- Claim C7: when the storage layer fails the `INSERT` of a create,
`add_todo` returns the failure as an error value (the wrapped
`ServerError` message) with the store untouched; at the dispatcher
boundary the settling submission records that error value as its
outcome, the store — hence the next Collection Snapshot — is unchanged,
and nothing escapes past the dispatcher other than these values. -/
theorem insert_failure_captured_as_value_store_unchanged
    (msg title : String) (s : Store) (st : Sys) (i : Nat) (sub : Submission)
    (h1 : st.addD.submissions[i]? = some sub) (h2 : sub.outcome = none) :
    (add_todo (DbOutcome.execErr msg) title s).1
        = Except.error (ServerFnError.serverError msg)
    ∧ (add_todo (DbOutcome.execErr msg) title s).2 = s
    ∧ (step st (Event.settleCreate i (DbOutcome.execErr msg))).addD.submissions[i]?
        = some { sub with outcome := some (Except.error (ServerFnError.serverError msg)) }
    ∧ (step st (Event.settleCreate i (DbOutcome.execErr msg))).store = st.store
    ∧ get_todos DbOutcome.ok (step st (Event.settleCreate i (DbOutcome.execErr msg))).store
        = get_todos DbOutcome.ok st.store := by
  have hlen : i < st.addD.submissions.length := by
    rcases List.getElem?_eq_some_iff.mp h1 with ⟨h, _⟩
    exact h
  refine ⟨rfl, rfl, ?_, ?_, ?_⟩
  · simp [step, h1, h2, add_todo, List.getElem?_set_self hlen]
  · simp [step, h1, h2, add_todo]
  · simp [step, h1, h2, add_todo]

/-- Claim C7, witness: in `sysA`, settling the in-flight submission with
a failing `INSERT` leaves the store unchanged. -/
theorem insert_failure_captured_witness :
    sysA.addD.submissions[0]? = some subA
    ∧ subA.outcome = none
    ∧ (step sysA (Event.settleCreate 0 (DbOutcome.execErr "constraint violation"))).store
        = sysA.store :=
  ⟨by decide, by decide,
    (insert_failure_captured_as_value_store_unchanged "constraint violation"
      "Buy milk" store0 sysA 0 subA (by decide) (by decide)).2.2.2.1⟩
